import Mathlib

/-!
Verification development for the UGC-Flow repository.

The repository is a persona-driven content-production wizard: a React
application (src/unnamed/part_000) owning a single WorkflowState value and
driving per-persona calls to a generative AI backend (the geminiService
section of the same file), plus Supabase persona mappers
(src/lib/supabase.ts).

Embedding conventions:
- JS plain objects used as maps (Record<string, T>) are association lists in
  insertion order, accessed through recGet / recSet / recKeys, matching JS
  property semantics (assignment overwrites in place, new keys append).
- Every asynchronous capability call is passed in as an oracle argument of
  type Except String GenResponse; Except.error models a rejected promise /
  thrown exception, and a JS TypeError raised by dereferencing undefined is
  likewise modelled as Except.error at the point where the source would
  throw.
- Date.now() is passed in as an explicit Nat argument.
- React setState updaters are applied as plain functions on WorkflowState;
  a handler returns the resulting WorkflowState together with an
  Option String carrying the single error message the handler reports via
  setError (none when no error is reported).
- JSON.parse is modelled by jsonParse, a fuel-bounded parser over the JSON
  grammar (strings with the common escapes, numbers kept as their lexeme,
  arrays, objects, literals, whitespace).  Unicode escapes are not modelled;
  none of the inputs considered here use them.
-/

namespace UGC

/-! ## JSON values and a model of JSON.parse -/

inductive Json where
  | null
  | bool (b : Bool)
  | num (lexeme : String)
  | str (s : String)
  | arr (elems : List Json)
  | obj (fields : List (String × Json))
deriving Repr, Inhabited

def lbrace : Char := Char.ofNat 123

def rbrace : Char := Char.ofNat 125

def isJsonWs (c : Char) : Bool :=
  c = ' ' || c = '\t' || c = '\n' || c = '\r'

def skipWs : List Char → List Char
  | [] => []
  | c :: cs => if isJsonWs c then skipWs cs else c :: cs

def escChar (c : Char) : Option Char :=
  if c = '"' then some '"'
  else if c = '\\' then some '\\'
  else if c = '/' then some '/'
  else if c = 'n' then some '\n'
  else if c = 't' then some '\t'
  else if c = 'r' then some '\r'
  else if c = 'b' then some (Char.ofNat 8)
  else if c = 'f' then some (Char.ofNat 12)
  else none

def parseStrAux : List Char → List Char → Option (String × List Char)
  | _, [] => none
  | acc, c :: rest =>
    if c = '"' then some (String.mk acc.reverse, rest)
    else if c = '\\' then
      match rest with
      | [] => none
      | e :: rest2 =>
        match escChar e with
        | some ce => parseStrAux (ce :: acc) rest2
        | none => none
    else if c.val < 32 then none
    else parseStrAux (c :: acc) rest

def takeDigits : List Char → List Char × List Char
  | [] => ([], [])
  | c :: cs =>
    if c.isDigit then
      let p := takeDigits cs
      (c :: p.1, p.2)
    else ([], c :: cs)

def parseIntPart : List Char → Option (List Char × List Char)
  | [] => none
  | c :: cs =>
    if c = '0' then some ([c], cs)
    else if c.isDigit then
      let p := takeDigits cs
      some (c :: p.1, p.2)
    else none

def parseFracPart (cs : List Char) : List Char × List Char :=
  match cs with
  | '.' :: rest =>
    match takeDigits rest with
    | ([], _) => ([], cs)
    | (ds, r) => ('.' :: ds, r)
  | _ => ([], cs)

def parseExpPart (cs : List Char) : List Char × List Char :=
  match cs with
  | [] => ([], cs)
  | c :: rest =>
    if c = 'e' ∨ c = 'E' then
      match rest with
      | [] => ([], cs)
      | s :: rest2 =>
        if s = '+' ∨ s = '-' then
          match takeDigits rest2 with
          | ([], _) => ([], cs)
          | (ds, r) => (c :: s :: ds, r)
        else
          match takeDigits rest with
          | ([], _) => ([], cs)
          | (ds, r) => (c :: ds, r)
    else ([], cs)

def parseNumberToken (cs : List Char) : Option (String × List Char) :=
  let sp : List Char × List Char :=
    match cs with
    | '-' :: rest => (['-'], rest)
    | _ => ([], cs)
  match parseIntPart sp.2 with
  | none => none
  | some (ip, cs2) =>
    let fp := parseFracPart cs2
    let ep := parseExpPart fp.2
    some (String.mk (sp.1 ++ ip ++ fp.1 ++ ep.1), ep.2)

def litMatch : List Char → List Char → Option (List Char)
  | [], r => some r
  | _ :: _, [] => none
  | l :: ls, c :: r => if c = l then litMatch ls r else none

mutual

def parseValue : Nat → List Char → Option (Json × List Char)
  | 0, _ => none
  | fuel + 1, cs0 =>
    match skipWs cs0 with
    | [] => none
    | c :: rest =>
      if c = '"' then
        match parseStrAux [] rest with
        | some (s, r) => some (Json.str s, r)
        | none => none
      else if c = '[' then parseArrayRest fuel (skipWs rest) []
      else if c = lbrace then parseObjRest fuel (skipWs rest) []
      else if c = 'n' then
        match litMatch ['u', 'l', 'l'] rest with
        | some r => some (Json.null, r)
        | none => none
      else if c = 't' then
        match litMatch ['r', 'u', 'e'] rest with
        | some r => some (Json.bool true, r)
        | none => none
      else if c = 'f' then
        match litMatch ['a', 'l', 's', 'e'] rest with
        | some r => some (Json.bool false, r)
        | none => none
      else if c = '-' ∨ c.isDigit then
        match parseNumberToken (c :: rest) with
        | some (tok, r) => some (Json.num tok, r)
        | none => none
      else none

def parseArrayRest : Nat → List Char → List Json → Option (Json × List Char)
  | 0, _, _ => none
  | fuel + 1, cs, acc =>
    match cs with
    | [] => none
    | c :: rest =>
      if c = ']' then
        if acc.isEmpty then some (Json.arr [], rest) else none
      else
        match parseValue fuel (c :: rest) with
        | none => none
        | some (v, r) =>
          match skipWs r with
          | ',' :: r2 => parseArrayRest fuel (skipWs r2) (acc ++ [v])
          | ']' :: r2 => some (Json.arr (acc ++ [v]), r2)
          | _ => none

def parseObjRest : Nat → List Char → List (String × Json) → Option (Json × List Char)
  | 0, _, _ => none
  | fuel + 1, cs, acc =>
    match cs with
    | [] => none
    | c :: rest =>
      if c = rbrace then
        if acc.isEmpty then some (Json.obj [], rest) else none
      else if c = '"' then
        match parseStrAux [] rest with
        | none => none
        | some (k, r) =>
          match skipWs r with
          | ':' :: r2 =>
            match parseValue fuel (skipWs r2) with
            | none => none
            | some (v, r3) =>
              match skipWs r3 with
              | [] => none
              | c2 :: r4 =>
                if c2 = ',' then parseObjRest fuel (skipWs r4) (acc ++ [(k, v)])
                else if c2 = rbrace then some (Json.obj (acc ++ [(k, v)]), r4)
                else none
          | _ => none
      else none

end

/-- Model of JSON.parse: some value on a successful parse of the whole text
(trailing whitespace allowed), none where JSON.parse would throw a
SyntaxError. -/
def jsonParse (s : String) : Option Json :=
  match parseValue (2 * s.length + 8) s.data with
  | some (v, rest) => if (skipWs rest).isEmpty then some v else none
  | none => none

def Json.getField (j : Json) (k : String) : Option Json :=
  match j with
  | .obj fs =>
    match fs.find? (fun e => e.1 == k) with
    | some e => some e.2
    | none => none
  | _ => none

def Json.getStr (j : Json) (k : String) : Option String :=
  match j.getField k with
  | some (.str s) => some s
  | _ => none

/-! ## JS record (plain object) helpers -/

def recGet {α : Type} (m : List (String × α)) (k : String) : Option α :=
  match m.find? (fun e => e.1 == k) with
  | some e => some e.2
  | none => none

def recSet {α : Type} : List (String × α) → String → α → List (String × α)
  | [], k, v => [(k, v)]
  | e :: rest, k, v => if e.1 = k then (k, v) :: rest else e :: recSet rest k v

def recKeys {α : Type} (m : List (String × α)) : List String :=
  m.map (fun e => e.1)

/-- Model of the JS idiom `x || d` on a possibly-absent string: undefined and
the empty string are falsy and fall back to the default. -/
def strOr (s : Option String) (d : String) : String :=
  match s with
  | none => d
  | some t => if t = "" then d else t

/-! ## Data model (src/types.ts) -/

structure Persona where
  id : String
  name : String
  location : String
  country : String
  niche : List String
  bio : String
  avatarUrl : String
  refImages : List String
deriving Repr, DecidableEq

structure GeneratedIdea where
  id : String
  personaId : String
  title : String
  description : String
  selected : Bool
deriving Repr, DecidableEq

structure RefinementRequirement where
  id : String
  question : String
  suggestion : String
  userResponse : String
  referenceImage : Option String
deriving Repr, DecidableEq

structure GeneratedImage where
  id : String
  ideaId : String
  imageUrl : String
  prompt : String
deriving Repr, DecidableEq

structure CaptionData where
  caption : String
  hashtags : List String
deriving Repr, DecidableEq

inductive Step where
  | dashboard
  | selection
  | ideation
  | refinement
  | generation
  | editing
  | captions
  | complete
deriving Repr, DecidableEq

inductive GenMode where
  | manual
  | auto
deriving Repr, DecidableEq

structure WorkflowState where
  step : Step
  selectedPersonaIds : List String
  mode : Option GenMode
  manualActivityInput : String
  generatedIdeas : List (String × List GeneratedIdea)
  selectedIdeaIds : List (String × String)
  refinementData : List (String × List RefinementRequirement)
  generatedImages : List (String × List GeneratedImage)
  captions : List (String × CaptionData)
deriving Repr, DecidableEq

/-! ## Generation capability interface (geminiService call shape) -/

/-- One part of a generateContent response candidate: part.text and
part.inlineData.data, either possibly absent. -/
structure GenPart where
  text : Option String
  inlineData : Option String
deriving Repr, DecidableEq

/-- A generateContent response: response.text, and
response.candidates[0].content.parts (empty when absent). -/
structure GenResponse where
  text : Option String
  parts : List GenPart
deriving Repr, DecidableEq

/-- Shape of the config object passed to one generateContent call site:
which optional members the source supplies at that call. -/
structure GenConfig where
  responseMimeType : Option String
  hasResponseSchema : Bool
  hasGoogleSearchTool : Bool
  hasImageConfig : Bool
  hasSystemInstruction : Bool
deriving Repr, DecidableEq

/-- Config of the enhancePersonaProfile call (part_000 lines 1285-1293). -/
def enhancePersonaConfig : GenConfig :=
  { responseMimeType := some "application/json", hasResponseSchema := true,
    hasGoogleSearchTool := false, hasImageConfig := false,
    hasSystemInstruction := true }

/-- Config of the generateManualVariants call (part_000 lines 1338-1346). -/
def manualVariantsConfig : GenConfig :=
  { responseMimeType := some "application/json", hasResponseSchema := true,
    hasGoogleSearchTool := false, hasImageConfig := false,
    hasSystemInstruction := true }

/-- Config of the generateAutoTrends call (part_000 lines 1376-1383): search
tool enabled, no response schema (the source comments that responseMimeType
application/json is not supported together with googleSearch). -/
def autoTrendsConfig : GenConfig :=
  { responseMimeType := none, hasResponseSchema := false,
    hasGoogleSearchTool := true, hasImageConfig := false,
    hasSystemInstruction := false }

/-- Config of the analyzeIdeaRequirements call (part_000 lines 1441-1448). -/
def analyzeRequirementsConfig : GenConfig :=
  { responseMimeType := some "application/json", hasResponseSchema := true,
    hasGoogleSearchTool := false, hasImageConfig := false,
    hasSystemInstruction := false }

/-- Config of the generateUGCImages calls (part_000 lines 1514-1523). -/
def ugcImagesConfig : GenConfig :=
  { responseMimeType := none, hasResponseSchema := false,
    hasGoogleSearchTool := false, hasImageConfig := true,
    hasSystemInstruction := false }

/-- Config of the editImageWithChat call (part_000 lines 1563-1571). -/
def editImageConfig : GenConfig :=
  { responseMimeType := none, hasResponseSchema := false,
    hasGoogleSearchTool := false, hasImageConfig := true,
    hasSystemInstruction := false }

/-- Config of the generateCaptionStrategy call (part_000 lines 1611-1618). -/
def captionStrategyConfig : GenConfig :=
  { responseMimeType := some "application/json", hasResponseSchema := true,
    hasGoogleSearchTool := false, hasImageConfig := false,
    hasSystemInstruction := false }

/-- All generateContent call sites of the service layer, in source order. -/
def allGenerateContentConfigs : List GenConfig :=
  [enhancePersonaConfig, manualVariantsConfig, autoTrendsConfig,
   analyzeRequirementsConfig, ugcImagesConfig, editImageConfig,
   captionStrategyConfig]

/-! ## Service layer (geminiService section of part_000)

Each service function takes the capability response (or rejection) as an
oracle argument and models only the response processing; the request
construction is captured by the GenConfig constants above and, for the
image stage, by buildFullPrompt. -/

/-- Embeds generateManualVariants (part_000 lines 1307-1356), response
processing: raw = JSON.parse(response.text || "[]") followed by raw.map
building GeneratedIdea records.  A JSON.parse throw and a raw.map call on a
non-array are modelled as Except.error.  A field access r.title on a parsed
record is modelled by Json.getStr with "" standing in for undefined (not
exercised: the declared schema requires string title and description). -/
def generateManualVariants (persona : Persona) (now : Nat)
    (resp : Except String GenResponse) : Except String (List GeneratedIdea) :=
  match resp with
  | .error e => .error e
  | .ok r =>
    match jsonParse (strOr r.text "[]") with
    | none => .error "SyntaxError: JSON.parse"
    | some (Json.arr items) =>
      .ok (items.enum.map (fun p =>
        { id := persona.id ++ "-idea-" ++ toString now ++ "-" ++ toString p.1
          personaId := persona.id
          title := (p.2.getStr "title").getD ""
          description := (p.2.getStr "description").getD ""
          selected := false }))
    | some _ => .error "TypeError: raw.map is not a function"

/-- Index of the first occurrence of a character. -/
def firstIdxOf (c : Char) : List Char → Option Nat
  | [] => none
  | x :: xs =>
    if x = c then some 0
    else
      match firstIdxOf c xs with
      | some k => some (k + 1)
      | none => none

/-- Index of the last occurrence of a character. -/
def lastIdxOf (c : Char) (cs : List Char) : Option Nat :=
  match firstIdxOf c cs.reverse with
  | some k => some (cs.length - 1 - k)
  | none => none

/-- Regex match of /\x5b[\s\S]*\x5d/ against the text (part_000 line 1389):
the leftmost-greedy match runs from the first open bracket to the last close
bracket after it, i.e. the last close bracket of the whole text. -/
def extractArrayMatch (t : String) : Option String :=
  match firstIdxOf '[' t.data, lastIdxOf ']' t.data with
  | some i, some j =>
    if i < j then some (String.mk ((t.data.drop i).take (j - i + 1))) else none
  | _, _ => none

/-- Builds one trend idea from a parsed record (part_000 lines 1402-1408);
r.title || "Trending Idea" falls back on a missing, non-string or empty
field. -/
def trendIdeaOfJson (persona : Persona) (now : Nat) (i : Nat) (r : Json) :
    GeneratedIdea :=
  { id := persona.id ++ "-trend-" ++ toString now ++ "-" ++ toString i
    personaId := persona.id
    title := strOr (r.getStr "title") "Trending Idea"
    description := strOr (r.getStr "description") "Description unavailable"
    selected := false }

/-- Embeds generateAutoTrends (part_000 lines 1358-1409), response
processing: the text is searched with the greedy bracket regex, the match is
JSON.parsed inside a try/catch that resolves any failure to the empty list,
and the surviving records are mapped to trend ideas. -/
def generateAutoTrends (persona : Persona) (now : Nat)
    (resp : Except String GenResponse) : Except String (List GeneratedIdea) :=
  match resp with
  | .error e => .error e
  | .ok r =>
    let text := r.text.getD ""
    let raw : List Json :=
      match extractArrayMatch text with
      | none => []
      | some m =>
        match jsonParse m with
        | some (Json.arr xs) => xs
        | _ => []
    .ok (raw.enum.map (fun p => trendIdeaOfJson persona now p.1 p.2))

/-- Embeds analyzeIdeaRequirements (part_000 lines 1415-1457), response
processing: raw = JSON.parse(response.text || "[]") then raw.map building
RefinementRequirement records with ids idea.id-req-<index>. -/
def analyzeIdeaRequirements (idea : GeneratedIdea)
    (resp : Except String GenResponse) :
    Except String (List RefinementRequirement) :=
  match resp with
  | .error e => .error e
  | .ok r =>
    match jsonParse (strOr r.text "[]") with
    | none => .error "SyntaxError: JSON.parse"
    | some (Json.arr items) =>
      .ok (items.enum.map (fun p =>
        { id := idea.id ++ "-req-" ++ toString p.1
          question := (p.2.getStr "question").getD ""
          suggestion := (p.2.getStr "suggestion").getD ""
          userResponse := ""
          referenceImage := none }))
    | some _ => .error "TypeError: raw.map is not a function"

/-- Embeds the fullPrompt construction of generateUGCImages (part_000 lines
1472-1480): base template then one Detail clause per requirement, using
userResponse when non-empty, else the suggestion. -/
def buildFullPrompt (persona : Persona) (idea : GeneratedIdea)
    (reqs : List RefinementRequirement) : String :=
  let base := "Photorealistic Instagram photo of " ++ persona.name ++ ", a "
    ++ persona.bio ++ ". \n  Location: " ++ persona.location ++ ", "
    ++ persona.country ++ ".\n  Action: " ++ idea.description ++ ".\n  "
  reqs.foldl
    (fun acc req =>
      acc ++ " Detail: " ++ strOr (some req.userResponse) req.suggestion ++ ".")
    base

/-- Images extracted from the parts of one successful image-call response
(part_000 lines 1525-1534): every part carrying inlineData becomes a
GeneratedImage whose id embeds the call index. -/
def imagesFromResponse (idea : GeneratedIdea) (fullPrompt : String)
    (now i : Nat) (r : GenResponse) : List GeneratedImage :=
  r.parts.filterMap (fun part =>
    match part.inlineData with
    | some d =>
      some { id := idea.id ++ "-img-" ++ toString now ++ "-" ++ toString i
             ideaId := idea.id
             imageUrl := "data:image/png;base64," ++ d
             prompt := fullPrompt }
    | none => none)

/-- Embeds generateUGCImages (part_000 lines 1463-1541): count sequential
calls, each in its own try/catch, a failed call contributing nothing; the
oracle maps the call index to that call's response or rejection. -/
def generateUGCImages (persona : Persona) (idea : GeneratedIdea)
    (reqs : List RefinementRequirement) (count : Nat) (now : Nat)
    (oracle : Nat → Except String GenResponse) : List GeneratedImage :=
  let fullPrompt := buildFullPrompt persona idea reqs
  ((List.range count).map (fun i =>
    match oracle i with
    | .ok r => imagesFromResponse idea fullPrompt now i r
    | .error _ => [])).flatten

/-- First part carrying inlineData, as scanned by the for-of loops over
response parts. -/
def firstInlineData (parts : List GenPart) : Option String :=
  parts.findSome? (fun part => part.inlineData)

def splitCommaAux : List Char → List Char → List String
  | acc, [] => [String.mk acc.reverse]
  | acc, c :: rest =>
    if c = ',' then String.mk acc.reverse :: splitCommaAux [] rest
    else splitCommaAux (c :: acc) rest

/-- Model of the JS String.prototype.split with a one-character comma
separator, as used on the data URI in editImageWithChat. -/
def splitComma (s : String) : List String :=
  splitCommaAux [] s.data

/-- Embeds editImageWithChat (part_000 lines 1543-1583): requires the data
URI payload after the comma to be non-empty, then the first inlineData part
of a successful response replaces imageUrl on a copy of the record; no
inlineData part means a thrown error. -/
def editImageWithChat (image : GeneratedImage) (instruction : String)
    (resp : Except String GenResponse) : Except String GeneratedImage :=
  match (splitComma image.imageUrl)[1]? with
  | none => .error "Invalid image data"
  | some b64 =>
    if b64 = "" then .error "Invalid image data"
    else
      match resp with
      | .error e => .error e
      | .ok r =>
        match firstInlineData r.parts with
        | some d => .ok { image with imageUrl := "data:image/png;base64," ++ d }
        | none => .error "No image returned from edit"

/-- Typed reading of a parsed caption object (part_000 line 1620 returns the
parsed JSON as CaptionData; non-string members are normalized away by the
typed embedding and are not exercised here). -/
def captionOfJson (j : Json) : CaptionData :=
  { caption := (j.getStr "caption").getD ""
    hashtags :=
      match j.getField "hashtags" with
      | some (Json.arr xs) =>
        xs.filterMap (fun x => match x with | Json.str s => some s | _ => none)
      | _ => [] }

/-- Embeds generateCaptionStrategy (part_000 lines 1589-1621), response
processing: JSON.parse(response.text || defaultCaptionJson) with no
try/catch, so a malformed non-empty text throws. -/
def generateCaptionStrategy (resp : Except String GenResponse) :
    Except String CaptionData :=
  match resp with
  | .error e => .error e
  | .ok r =>
    match jsonParse (strOr r.text "\x7b\"caption\":\"\", \"hashtags\":[]\x7d") with
    | none => .error "SyntaxError: JSON.parse"
    | some j => .ok (captionOfJson j)

/-! ## Persona mappers (src/lib/supabase.ts) -/

/-- A personas table row; niche, avatar_url and ref_images may be null. -/
structure DbPersonaRow where
  id : String
  name : String
  location : String
  country : String
  niche : Option (List String)
  bio : String
  avatar_url : Option String
  ref_images : Option (List String)
deriving Repr, DecidableEq

/-- The value mapPersonaFromDb builds: a JS object whose avatarUrl is the raw
row value and may therefore be null, unlike the Persona interface. -/
structure JsPersona where
  id : String
  name : String
  location : String
  country : String
  niche : List String
  bio : String
  avatarUrl : Option String
  refImages : List String
deriving Repr, DecidableEq

/-- Embeds mapPersonaToDb (supabase.ts lines 21-30) applied to a typed
Persona: niche and refImages are lists (JS arrays are truthy, including the
empty array, so the || fallbacks do not fire), while avatarUrl is replaced
by null when it is the empty string (avatarUrl || null). -/
def mapPersonaToDb (p : Persona) : DbPersonaRow :=
  { id := p.id
    name := p.name
    location := p.location
    country := p.country
    niche := some p.niche
    bio := p.bio
    avatar_url := if p.avatarUrl = "" then none else some p.avatarUrl
    ref_images := some p.refImages }

/-- Embeds mapPersonaFromDb (supabase.ts lines 10-19): row.niche || [] and
row.ref_images || [] replace null by the empty list (a present empty array
is truthy and kept as is), avatar_url is passed through unchanged. -/
def mapPersonaFromDb (row : DbPersonaRow) : JsPersona :=
  { id := row.id
    name := row.name
    location := row.location
    country := row.country
    niche := row.niche.getD []
    bio := row.bio
    avatarUrl := row.avatar_url
    refImages := row.ref_images.getD [] }

/-- Injection of a typed Persona into the JS-object shape that
mapPersonaFromDb produces: a JS string avatarUrl, even the empty one, is a
present string, not null. -/
def personaToJs (p : Persona) : JsPersona :=
  { id := p.id
    name := p.name
    location := p.location
    country := p.country
    niche := p.niche
    bio := p.bio
    avatarUrl := some p.avatarUrl
    refImages := p.refImages }

/-! ## Workflow engine (App component handlers in part_000)

Each handler is a function of the capability oracles, the personas list and
the current WorkflowState, returning the next WorkflowState together with
the error message it reports through setError (none when it reports none). -/

def findPersona (personas : List Persona) (pid : String) : Option Persona :=
  personas.find? (fun p => p.id == pid)

/-- One iteration body of the generateIdeas loop (part_000 lines 340-347):
the persona is looked up with a non-null assertion, so a missing persona is
a thrown TypeError; then the mode picks the service call. -/
def ideationCall (personas : List Persona) (mode : GenMode) (now : Nat)
    (oracle : String → Except String GenResponse) (pid : String) :
    Except String (List GeneratedIdea) :=
  match findPersona personas pid with
  | none => .error "TypeError: persona is undefined"
  | some persona =>
    match mode with
    | .manual => generateManualVariants persona now (oracle pid)
    | .auto => generateAutoTrends persona now (oracle pid)

/-- The generateIdeas accumulation loop over selectedPersonaIds: the first
failing call aborts the whole batch (part_000 lines 338-347). -/
def ideationLoop (personas : List Persona) (mode : GenMode) (now : Nat)
    (oracle : String → Except String GenResponse) :
    List String → List (String × List GeneratedIdea) →
    Except String (List (String × List GeneratedIdea))
  | [], acc => .ok acc
  | pid :: rest, acc =>
    match ideationCall personas mode now oracle pid with
    | .error e => .error e
    | .ok ideas => ideationLoop personas mode now oracle rest (recSet acc pid ideas)

/-- Embeds generateIdeas (part_000 lines 333-356): on success the whole
ideasMap replaces generatedIdeas, the mode is recorded and step is set to
ideation; on any failure the state is untouched and the one aggregate error
message is reported. -/
def generateIdeas (personas : List Persona) (mode : GenMode) (now : Nat)
    (oracle : String → Except String GenResponse) (s : WorkflowState) :
    WorkflowState × Option String :=
  match ideationLoop personas mode now oracle s.selectedPersonaIds [] with
  | .ok ideasMap =>
    ({ s with generatedIdeas := ideasMap, mode := some mode, step := .ideation },
     none)
  | .error _ => (s, some "Failed to generate ideas. Ensure API Key is set.")

/-- Embeds regenerateIdea (part_000 lines 358-375): one call for the given
persona replaces generatedIdeas[pid] on success; there is no catch clause,
so on failure the rejection escapes and the state is unchanged. -/
def regenerateIdea (personas : List Persona) (pid : String) (now : Nat)
    (resp : Except String GenResponse) (s : WorkflowState) :
    WorkflowState × Option String :=
  let call : Except String (List GeneratedIdea) :=
    match findPersona personas pid with
    | none => .error "TypeError: persona is undefined"
    | some persona =>
      match s.mode with
      | some .manual => generateManualVariants persona now resp
      | _ => generateAutoTrends persona now resp
  match call with
  | .ok newIdeas =>
    ({ s with generatedIdeas := recSet s.generatedIdeas pid newIdeas }, none)
  | .error e => (s, some e)

/-- Embeds selectIdea (part_000 lines 377-382). -/
def selectIdea (personaId ideaId : String) (s : WorkflowState) : WorkflowState :=
  { s with selectedIdeaIds := recSet s.selectedIdeaIds personaId ideaId }

/-- The proceedToRefinement accumulation loop (part_000 lines 390-403): a
persona without a selected idea id (undefined or empty, both falsy) is
skipped, a persona whose generatedIdeas entry is missing makes ideas.find
throw, a selected idea id not found among the ideas is skipped, a missing
persona makes the prompt template throw, and the first failing analysis call
aborts the batch. -/
def refinementLoop (personas : List Persona) (s : WorkflowState)
    (oracle : String → Except String GenResponse) :
    List String → List (String × List RefinementRequirement) →
    Except String (List (String × List RefinementRequirement))
  | [], acc => .ok acc
  | pid :: rest, acc =>
    match recGet s.selectedIdeaIds pid with
    | none => refinementLoop personas s oracle rest acc
    | some ideaId =>
      if ideaId = "" then refinementLoop personas s oracle rest acc
      else
        match recGet s.generatedIdeas pid with
        | none => .error "TypeError: ideas is undefined"
        | some ideas =>
          match ideas.find? (fun i => i.id == ideaId) with
          | none => refinementLoop personas s oracle rest acc
          | some selectedIdea =>
            match findPersona personas pid with
            | none => .error "TypeError: persona is undefined"
            | some _ =>
              match analyzeIdeaRequirements selectedIdea (oracle pid) with
              | .error e => .error e
              | .ok reqs =>
                refinementLoop personas s oracle rest (recSet acc selectedIdea.id reqs)

/-- Embeds proceedToRefinement (part_000 lines 384-411): on success the
refinementMap replaces refinementData and step becomes refinement — with no
completeness check over selectedIdeaIds; on failure the state is untouched
and "Analysis failed." is reported. -/
def proceedToRefinement (personas : List Persona)
    (oracle : String → Except String GenResponse) (s : WorkflowState) :
    WorkflowState × Option String :=
  match refinementLoop personas s oracle s.selectedPersonaIds [] with
  | .ok m => ({ s with refinementData := m, step := .refinement }, none)
  | .error _ => (s, some "Analysis failed.")

/-- The proceedToGeneration accumulation loop (part_000 lines 452-464):
personas without a selected idea id are skipped; a missing generatedIdeas
entry, a selected idea absent from it, or a missing persona all throw inside
the try; otherwise generateUGCImages (which never throws) fills the map
under the idea id. -/
def generationLoop (personas : List Persona) (s : WorkflowState)
    (genCount now : Nat) (oracle : String → Nat → Except String GenResponse) :
    List String → List (String × List GeneratedImage) →
    Except String (List (String × List GeneratedImage))
  | [], acc => .ok acc
  | pid :: rest, acc =>
    match recGet s.selectedIdeaIds pid with
    | none => generationLoop personas s genCount now oracle rest acc
    | some ideaId =>
      if ideaId = "" then generationLoop personas s genCount now oracle rest acc
      else
        match recGet s.generatedIdeas pid with
        | none => .error "TypeError: ideas is undefined"
        | some ideas =>
          match ideas.find? (fun i => i.id == ideaId) with
          | none => .error "TypeError: selectedIdea is undefined"
          | some selectedIdea =>
            match findPersona personas pid with
            | none => .error "TypeError: persona is undefined"
            | some persona =>
              let reqs := (recGet s.refinementData ideaId).getD []
              generationLoop personas s genCount now oracle rest
                (recSet acc ideaId
                  (generateUGCImages persona selectedIdea reqs genCount now
                    (oracle pid)))

/-- Embeds proceedToGeneration (part_000 lines 446-473): step is set to
generation up front; on success the imagesMap replaces generatedImages and
step becomes editing; on failure the step stays at generation and
"Image Generation Failed." is reported. -/
def proceedToGeneration (personas : List Persona) (genCount now : Nat)
    (oracle : String → Nat → Except String GenResponse) (s : WorkflowState) :
    WorkflowState × Option String :=
  match generationLoop personas s genCount now oracle s.selectedPersonaIds [] with
  | .ok m => ({ s with generatedImages := m, step := .editing }, none)
  | .error _ => ({ s with step := .generation }, some "Image Generation Failed.")

/-- Embeds handleEditImage (part_000 lines 475-500): a falsy edit input is a
silent no-op; a missing generatedImages entry or image id makes the lookup
throw inside the try and reports "Editing failed."; a successful edit
replaces exactly the matching image in the idea's list.  The editInputs
record is the separate editInputs component state. -/
def handleEditImage (ideaId imageId : String)
    (editInputs : List (String × String)) (resp : Except String GenResponse)
    (s : WorkflowState) : WorkflowState × Option String :=
  match recGet editInputs imageId with
  | none => (s, none)
  | some input =>
    if input = "" then (s, none)
    else
      match recGet s.generatedImages ideaId with
      | none => (s, some "Editing failed.")
      | some images =>
        match images.find? (fun img => img.id == imageId) with
        | none => (s, some "Editing failed.")
        | some imageToEdit =>
          match editImageWithChat imageToEdit input resp with
          | .error _ => (s, some "Editing failed.")
          | .ok newImage =>
            let newList := images.map (fun img => if img.id == imageId then newImage else img)
            ({ s with generatedImages := recSet s.generatedImages ideaId newList }, none)

/-- Embeds the confirmed branch of handleDeletePersona (part_000 lines
168-192): the persona is filtered out of the personas list and out of
selectedPersonaIds, and nothing else in the workflow state is touched. -/
def handleDeletePersona (id : String) (personas : List Persona)
    (s : WorkflowState) : List Persona × WorkflowState :=
  (personas.filter (fun p => !(p.id == id)),
   { s with selectedPersonaIds := s.selectedPersonaIds.filter (fun pid => !(pid == id)) })

/-- Disabled condition of the ideation Next Step button (part_000 line 964):
Object.keys(state.selectedIdeaIds).length !== state.selectedPersonaIds.length. -/
def ideationNextDisabled (s : WorkflowState) : Bool :=
  (recKeys s.selectedIdeaIds).length != s.selectedPersonaIds.length

/-- An idea id is reachable from the current selection when some selected
persona's generatedIdeas entry contains an idea with that id. -/
def ideaIdReachable (s : WorkflowState) (k : String) : Bool :=
  s.selectedPersonaIds.any (fun pid =>
    match recGet s.generatedIdeas pid with
    | some ideas => ideas.any (fun i => i.id == k)
    | none => false)

/-- The no-orphan invariant of the spec: every selectedIdeaIds key is a
selected persona id, and every refinementData, generatedImages and captions
key is a reachable idea id. -/
def noOrphans (s : WorkflowState) : Bool :=
  ((recKeys s.selectedIdeaIds).all (fun k => s.selectedPersonaIds.contains k))
  && ((recKeys s.refinementData).all (ideaIdReachable s))
  && ((recKeys s.generatedImages).all (ideaIdReachable s))
  && ((recKeys s.captions).all (ideaIdReachable s))

/-- Modelled from the spec: the search-augmented parsing rule, "scan the raw
text for the first syntactically complete JSON array using bracket matching;
if none found, return an empty list" — the first position holding an open
bracket from which some span parses as a complete JSON array, shortest span
first.  This is the comparison definition for the refinement claim about
generateAutoTrends; the source itself uses the greedy regex modelled by
extractArrayMatch. -/
def specFirstCompleteArray (t : String) : Option (List Json) :=
  let cs := t.data
  let n := cs.length
  (List.range n).findSome? (fun i =>
    if cs.getD i ' ' = '[' then
      (List.range n).findSome? (fun len =>
        match jsonParse (String.mk ((cs.drop i).take (len + 1))) with
        | some (Json.arr xs) => some xs
        | _ => none)
    else none)

/-! ## Shared concrete fixtures -/

/-- The seed persona p1 of the source, trimmed to the fields the scenarios
use. -/
def samplePersona : Persona :=
  { id := "p1", name := "Jakob", location := "Zagreb", country := "Croatia",
    niche := ["Fitness"], bio := "runner", avatarUrl := "a", refImages := [] }

def sampleIdea : GeneratedIdea :=
  { id := "i1", personaId := "p1", title := "T", description := "D",
    selected := false }

def emptyWorkflow : WorkflowState :=
  { step := .dashboard, selectedPersonaIds := [], mode := none,
    manualActivityInput := "", generatedIdeas := [], selectedIdeaIds := [],
    refinementData := [], generatedImages := [], captions := [] }

def ideationReadyState : WorkflowState :=
  { step := .ideation, selectedPersonaIds := ["p1"], mode := none,
    manualActivityInput := "drinking coffee", generatedIdeas := [],
    selectedIdeaIds := [], refinementData := [], generatedImages := [],
    captions := [] }

/-! ## Record lemmas -/

theorem recGet_cons {α : Type} (e : String × α) (rest : List (String × α))
    (k : String) :
    recGet (e :: rest) k = if e.1 = k then some e.2 else recGet rest k := by
  by_cases h : e.1 = k
  · simp [recGet, List.find?_cons_of_pos, h]
  · simp [recGet, List.find?_cons_of_neg, h]

theorem recGet_isSome_of_mem_keys {α : Type} (m : List (String × α))
    (k : String) (h : k ∈ recKeys m) : ∃ v, recGet m k = some v := by
  induction m with
  | nil => simp [recKeys] at h
  | cons e rest ih =>
    rw [recGet_cons]
    by_cases hek : e.1 = k
    · exact ⟨e.2, by simp [hek]⟩
    · have hk : k ∈ recKeys rest := by
        simp only [recKeys, List.map_cons, List.mem_cons] at h
        rcases h with h | h
        · exact absurd h.symm hek
        · simpa [recKeys] using h
      simpa [hek] using ih hk

theorem recGet_recSet {α : Type} (m : List (String × α)) (k k2 : String)
    (v : α) :
    recGet (recSet m k v) k2 = if k = k2 then some v else recGet m k2 := by
  induction m with
  | nil =>
    by_cases h : k = k2 <;> simp [recSet, recGet_cons, h]
  | cons e rest ih =>
    by_cases hek : e.1 = k
    · rw [show recSet (e :: rest) k v = (k, v) :: rest by simp [recSet, hek]]
      rw [recGet_cons, recGet_cons]
      by_cases h : k = k2
      · simp [h]
      · simp only [if_neg h]
        rw [if_neg (fun he => h (hek ▸ he))]
    · rw [show recSet (e :: rest) k v = e :: recSet rest k v by simp [recSet, hek]]
      rw [recGet_cons, recGet_cons, ih]
      by_cases h : k = k2
      · rw [if_neg (fun he => hek (h ▸ he)), if_pos h, if_pos h]
      · simp [h]

/-! ## C10 -/

/-- C10: no generateContent call issued by the service layer declares a
responseSchema and enables the googleSearch tool in the same request — every
call-site config carries at most one of the two. -/
theorem generateContent_schemaSearchExclusive :
    allGenerateContentConfigs.all
      (fun c => !(c.hasResponseSchema && c.hasGoogleSearchTool)) = true := by
  rfl

/-! ## C9 -/

def c9Persona : Persona :=
  { id := "p9", name := "N", location := "L", country := "C", niche := [],
    bio := "B", avatarUrl := "", refImages := [] }

/-- C9 counterexample: a Persona with empty avatarUrl (exactly what
handleCreatePersona builds before an upload) does not round-trip through the
mappers: mapPersonaToDb stores avatarUrl || null as null, and
mapPersonaFromDb returns that null instead of the original empty string. -/
theorem personaRoundTrip_dropsEmptyAvatarUrl :
    mapPersonaFromDb (mapPersonaToDb c9Persona) ≠ personaToJs c9Persona ∧
    (mapPersonaFromDb (mapPersonaToDb c9Persona)).avatarUrl = none ∧
    (personaToJs c9Persona).avatarUrl = some "" := by
  refine ⟨fun h => ?_, rfl, rfl⟩
  have := congrArg JsPersona.avatarUrl h
  simp [mapPersonaFromDb, mapPersonaToDb, personaToJs, c9Persona] at this

/-- C9 amended: a Persona whose avatarUrl is non-empty round-trips through
mapPersonaToDb and mapPersonaFromDb unchanged (niche and refImages of a
typed Persona are always-present lists, so the empty-list normalization of
absent values never alters them); an empty avatarUrl is the one exception,
coming back as null instead of the empty string. -/
theorem personaRoundTrip_preservesNonEmptyAvatar (p : Persona)
    (h : p.avatarUrl ≠ "") :
    mapPersonaFromDb (mapPersonaToDb p) = personaToJs p := by
  simp [mapPersonaFromDb, mapPersonaToDb, personaToJs, h]

/-- Witness for the amended round-trip at a concrete persona. -/
theorem personaRoundTrip_preservesNonEmptyAvatar_witness :
    samplePersona.avatarUrl ≠ "" ∧
    mapPersonaFromDb (mapPersonaToDb samplePersona) = personaToJs samplePersona :=
  ⟨by decide, personaRoundTrip_preservesNonEmptyAvatar samplePersona (by decide)⟩

/-! ## C4 -/

def c4State : WorkflowState :=
  { step := .ideation, selectedPersonaIds := ["p1", "p2"], mode := some .manual,
    manualActivityInput := "coffee",
    generatedIdeas := [("p1", [sampleIdea]), ("p2", [])],
    selectedIdeaIds := [("p1", "i1")],
    refinementData := [], generatedImages := [], captions := [] }

/-- C4 counterexample: deleting persona p1 removes it from
selectedPersonaIds but leaves its selectedIdeaIds entry behind, so the
no-orphan invariant that held before the deletion is violated after it. -/
theorem deletePersona_leavesOrphanedSelection :
    noOrphans c4State = true ∧
    noOrphans (handleDeletePersona "p1" [samplePersona] c4State).2 = false := by
  exact ⟨rfl, rfl⟩

/-- C4 amended: handleDeletePersona removes the deleted id from the personas
list and from selectedPersonaIds but touches none of selectedIdeaIds,
refinementData, generatedImages and captions, and regenerateIdea never
touches selectedIdeaIds or refinementData — so entries keyed by ids made
unreachable stay behind as orphans rather than being cleaned up. -/
theorem delete_regenerate_frame (id pid : String) (personas : List Persona)
    (now : Nat) (resp : Except String GenResponse) (s : WorkflowState) :
    ((handleDeletePersona id personas s).2.selectedIdeaIds = s.selectedIdeaIds
      ∧ (handleDeletePersona id personas s).2.refinementData = s.refinementData
      ∧ (handleDeletePersona id personas s).2.generatedImages = s.generatedImages
      ∧ (handleDeletePersona id personas s).2.captions = s.captions
      ∧ id ∉ (handleDeletePersona id personas s).2.selectedPersonaIds)
    ∧ ((regenerateIdea personas pid now resp s).1.selectedIdeaIds = s.selectedIdeaIds
      ∧ (regenerateIdea personas pid now resp s).1.refinementData = s.refinementData) := by
  refine ⟨⟨rfl, rfl, rfl, rfl, ?_⟩, ?_, ?_⟩
  · simp [handleDeletePersona, List.mem_filter]
  · simp only [regenerateIdea]
    split <;> rfl
  · simp only [regenerateIdea]
    split <;> rfl

/-! ## C1 -/

def c1Oracle : String → Except String GenResponse := fun _ => .ok ⟨none, []⟩

def c1State : WorkflowState :=
  { step := .ideation, selectedPersonaIds := ["p1"], mode := some .manual,
    manualActivityInput := "coffee", generatedIdeas := [("p1", [sampleIdea])],
    selectedIdeaIds := [], refinementData := [], generatedImages := [],
    captions := [] }

/-- C1 counterexample: with persona p1 selected and no idea selected for it,
the engine operation proceedToRefinement does not refuse the advance: it
silently skips p1, reports no error, and still moves the step past ideation
to refinement. -/
theorem proceedToRefinement_advancesWithoutSelection :
    recGet c1State.selectedIdeaIds "p1" = none ∧
    (proceedToRefinement [samplePersona] c1Oracle c1State).1.step = Step.refinement ∧
    (proceedToRefinement [samplePersona] c1Oracle c1State).2 = none := by
  exact ⟨rfl, rfl, rfl⟩

/-- C1 amended: the engine function itself performs no completeness check
and advances past ideation even when a selected persona has no selected idea
(see the counterexample); the refusal lives only in the UI — the ideation
Next Step button invoking proceedToRefinement is disabled unless the number
of selectedIdeaIds keys equals the number of selected personas, and under
that guard, with distinct record keys drawn from the selected personas,
every selected persona does have a selected idea. -/
theorem ideation_nextStep_guard_complete (s : WorkflowState)
    (hguard : ideationNextDisabled s = false)
    (hsub : ∀ k ∈ recKeys s.selectedIdeaIds, k ∈ s.selectedPersonaIds)
    (hnodupK : (recKeys s.selectedIdeaIds).Nodup) :
    ∀ pid ∈ s.selectedPersonaIds,
      ∃ ideaId, recGet s.selectedIdeaIds pid = some ideaId := by
  have hlen : (recKeys s.selectedIdeaIds).length = s.selectedPersonaIds.length := by
    simpa [ideationNextDisabled] using hguard
  have hsubperm : List.Subperm (recKeys s.selectedIdeaIds) s.selectedPersonaIds :=
    hnodupK.subperm (fun k hk => hsub k hk)
  have hperm : List.Perm (recKeys s.selectedIdeaIds) s.selectedPersonaIds :=
    hsubperm.perm_of_length_le (le_of_eq hlen.symm)
  intro pid hpid
  exact recGet_isSome_of_mem_keys _ _ (hperm.mem_iff.mpr hpid)

def c1GoodState : WorkflowState :=
  { c1State with selectedIdeaIds := [("p1", "i1")] }

/-- Witness for the guard theorem at a concrete complete selection. -/
theorem ideation_nextStep_guard_complete_witness :
    ideationNextDisabled c1GoodState = false ∧
    ∃ ideaId, recGet c1GoodState.selectedIdeaIds "p1" = some ideaId := by
  refine ⟨rfl, ?_⟩
  exact ideation_nextStep_guard_complete c1GoodState rfl (by decide) (by decide)
    "p1" (by decide)

/-! ## C2 -/

theorem findPersona_id (personas : List Persona) (pid : String) (p : Persona)
    (h : findPersona personas pid = some p) : p.id = pid := by
  have := List.find?_some h
  simpa using this

theorem ideationLoop_error_of_exists (personas : List Persona) (mode : GenMode)
    (now : Nat) (oracle : String → Except String GenResponse)
    (l : List String) (acc : List (String × List GeneratedIdea))
    (pid : String) (e : String) (hmem : pid ∈ l)
    (hfail : ideationCall personas mode now oracle pid = .error e) :
    ∃ e2, ideationLoop personas mode now oracle l acc = .error e2 := by
  revert hmem
  induction l generalizing acc with
  | nil => intro hmem; simp at hmem
  | cons p rest ih =>
    intro hmem
    rcases List.mem_cons.mp hmem with h | h
    · subst h
      exact ⟨e, by simp only [ideationLoop, hfail]⟩
    · cases hc : ideationCall personas mode now oracle p with
      | error e2 => exact ⟨e2, by simp only [ideationLoop, hc]⟩
      | ok v =>
        obtain ⟨e2, h2⟩ := ih (recSet acc p v) h
        exact ⟨e2, by simp only [ideationLoop, hc]; exact h2⟩

/-- C2: if during generateIdeas any selected persona’s per-persona capability
call fails, the whole operation leaves the state exactly as it was before
(generatedIdeas uncommitted, mode and step untouched) and reports exactly
the one aggregate error message through setError. -/
theorem generateIdeas_allOrNothing (personas : List Persona) (mode : GenMode)
    (now : Nat) (oracle : String → Except String GenResponse)
    (s : WorkflowState) (pid : String) (e : String)
    (hmem : pid ∈ s.selectedPersonaIds)
    (hfail : ideationCall personas mode now oracle pid = .error e) :
    generateIdeas personas mode now oracle s =
      (s, some "Failed to generate ideas. Ensure API Key is set.") := by
  obtain ⟨e2, h2⟩ := ideationLoop_error_of_exists personas mode now oracle
    s.selectedPersonaIds [] pid e hmem hfail
  simp only [generateIdeas, h2]

def c2FailOracle : String → Except String GenResponse := fun _ => .error "network"

/-- Witness for the all-or-nothing theorem at a concrete failing run. -/
theorem generateIdeas_allOrNothing_witness :
    ("p1" ∈ ideationReadyState.selectedPersonaIds ∧
      ideationCall [samplePersona] GenMode.manual 0 c2FailOracle "p1" = .error "network") ∧
    generateIdeas [samplePersona] GenMode.manual 0 c2FailOracle ideationReadyState =
      (ideationReadyState, some "Failed to generate ideas. Ensure API Key is set.") := by
  refine ⟨⟨by decide, rfl⟩, ?_⟩
  exact generateIdeas_allOrNothing [samplePersona] GenMode.manual 0 c2FailOracle
    ideationReadyState "p1" "network" (by decide) rfl

/-! ## C7 -/

theorem generateManualVariants_shape (persona : Persona) (now : Nat)
    (resp : Except String GenResponse) (ideas : List GeneratedIdea)
    (h : generateManualVariants persona now resp = .ok ideas) :
    ∀ k (hk : k < ideas.length),
      (ideas.get ⟨k, hk⟩).personaId = persona.id ∧
      (ideas.get ⟨k, hk⟩).id =
        persona.id ++ "-idea-" ++ toString now ++ "-" ++ toString k := by
  cases resp with
  | error e => simp [generateManualVariants] at h
  | ok r =>
    simp only [generateManualVariants] at h
    cases hp : jsonParse (strOr r.text "[]") with
    | none => rw [hp] at h; simp at h
    | some j =>
      rw [hp] at h
      cases j with
      | arr items =>
        simp only at h
        injection h with h2
        subst h2
        intro k hk
        have hk2 : k < items.enum.length := by simpa using hk
        have hk3 : k < items.length := by simpa using hk2
        constructor
        · simp [List.get_eq_getElem, List.getElem_map, List.getElem_enum]
        · simp [List.get_eq_getElem, List.getElem_map, List.getElem_enum]
      | null => simp at h
      | bool b => simp at h
      | num lx => simp at h
      | str s2 => simp at h
      | obj fs => simp at h

theorem generateAutoTrends_shape (persona : Persona) (now : Nat)
    (resp : Except String GenResponse) (ideas : List GeneratedIdea)
    (h : generateAutoTrends persona now resp = .ok ideas) :
    ∀ k (hk : k < ideas.length),
      (ideas.get ⟨k, hk⟩).personaId = persona.id := by
  cases resp with
  | error e => simp [generateAutoTrends] at h
  | ok r =>
    simp only [generateAutoTrends] at h
    injection h with h2
    subst h2
    intro k hk
    have hk2 : k < _ := hk
    simp [List.get_eq_getElem, List.getElem_map, List.getElem_enum,
      trendIdeaOfJson]

theorem ideationCall_shape (personas : List Persona) (mode : GenMode)
    (now : Nat) (oracle : String → Except String GenResponse) (pid : String)
    (ideas : List GeneratedIdea)
    (h : ideationCall personas mode now oracle pid = .ok ideas) :
    ∀ k (hk : k < ideas.length),
      (ideas.get ⟨k, hk⟩).personaId = pid ∧
      (mode = GenMode.manual →
        (ideas.get ⟨k, hk⟩).id =
          pid ++ "-idea-" ++ toString now ++ "-" ++ toString k) := by
  simp only [ideationCall] at h
  cases hf : findPersona personas pid with
  | none => rw [hf] at h; simp at h
  | some persona =>
    rw [hf] at h
    have hpid := findPersona_id personas pid persona hf
    cases mode with
    | manual =>
      simp only at h
      intro k hk
      have hs := generateManualVariants_shape persona now (oracle pid) ideas h k hk
      exact ⟨hpid ▸ hs.1, fun _ => hpid ▸ hs.2⟩
    | auto =>
      simp only at h
      intro k hk
      refine ⟨hpid ▸ generateAutoTrends_shape persona now (oracle pid) ideas h k hk, ?_⟩
      intro hm
      exact GenMode.noConfusion hm

theorem ideationLoop_frame (personas : List Persona) (mode : GenMode)
    (now : Nat) (oracle : String → Except String GenResponse) (pid : String) :
    ∀ (l : List String) (acc m : List (String × List GeneratedIdea)),
      pid ∉ l → ideationLoop personas mode now oracle l acc = .ok m →
      recGet m pid = recGet acc pid := by
  intro l
  induction l with
  | nil =>
    intro acc m _ h
    simp only [ideationLoop] at h
    injection h with h2
    rw [h2]
  | cons p rest ih =>
    intro acc m hnot h
    simp only [ideationLoop] at h
    cases hc : ideationCall personas mode now oracle p with
    | error e => rw [hc] at h; simp at h
    | ok v =>
      rw [hc] at h
      have hne : pid ≠ p := fun he => hnot (he ▸ List.mem_cons_self p rest)
      have hnr : pid ∉ rest := fun hr => hnot (List.mem_cons_of_mem p hr)
      rw [ih _ _ hnr h, recGet_recSet, if_neg (fun he => hne he.symm)]

theorem ideationLoop_ok_get (personas : List Persona) (mode : GenMode)
    (now : Nat) (oracle : String → Except String GenResponse) (pid : String) :
    ∀ (l : List String) (acc m : List (String × List GeneratedIdea)),
      ideationLoop personas mode now oracle l acc = .ok m → pid ∈ l →
      ∃ ideas, ideationCall personas mode now oracle pid = .ok ideas ∧
        recGet m pid = some ideas := by
  intro l
  induction l with
  | nil => intro acc m _ hmem; simp at hmem
  | cons p rest ih =>
    intro acc m h hmem
    simp only [ideationLoop] at h
    cases hc : ideationCall personas mode now oracle p with
    | error e => rw [hc] at h; simp at h
    | ok v =>
      rw [hc] at h
      by_cases hpr : pid ∈ rest
      · exact ih _ _ h hpr
      · have hpe : pid = p := by
          rcases List.mem_cons.mp hmem with h1 | h1
          · exact h1
          · exact absurd h1 hpr
        subst hpe
        refine ⟨v, hc, ?_⟩
        rw [ideationLoop_frame personas mode now oracle pid rest _ _ hpr h]
        rw [recGet_recSet, if_pos rfl]

def c7EmptyOracle : String → Except String GenResponse :=
  fun _ => .ok ⟨some "[]", []⟩

/-- C7 counterexample: a successful generateIdeas can commit an empty list —
when the capability returns the JSON text [] for p1, the run succeeds (no
error reported) yet generatedIdeas[p1] is the empty list, not a non-empty
one. -/
theorem generateIdeas_canCommitEmptyList :
    (generateIdeas [samplePersona] GenMode.manual 0 c7EmptyOracle
      ideationReadyState).2 = none ∧
    recGet (generateIdeas [samplePersona] GenMode.manual 0 c7EmptyOracle
      ideationReadyState).1.generatedIdeas "p1" = some [] := by
  exact ⟨rfl, rfl⟩

/-- C7 amended: after a successful generateIdeas over selectedPersonaIds the
step is ideation, the mode is recorded, and every selected persona pid has a
generatedIdeas entry (possibly empty — the system tolerates a capability
returning fewer than three records) in which every entry carries
personaId = pid, and in manual mode the k-th entry has the derived id
pid-idea-<timestamp>-<k>. -/
theorem generateIdeas_successShape (personas : List Persona) (mode : GenMode)
    (now : Nat) (oracle : String → Except String GenResponse)
    (s s2 : WorkflowState)
    (h : generateIdeas personas mode now oracle s = (s2, none)) :
    s2.step = Step.ideation ∧ s2.mode = some mode ∧
    ∀ pid ∈ s.selectedPersonaIds, ∃ ideas,
      recGet s2.generatedIdeas pid = some ideas ∧
      ∀ k (hk : k < ideas.length),
        (ideas.get ⟨k, hk⟩).personaId = pid ∧
        (mode = GenMode.manual →
          (ideas.get ⟨k, hk⟩).id =
            pid ++ "-idea-" ++ toString now ++ "-" ++ toString k) := by
  cases hl : ideationLoop personas mode now oracle s.selectedPersonaIds [] with
  | error e =>
    simp only [generateIdeas] at h
    rw [hl] at h
    exact absurd (congrArg Prod.snd h) (by simp)
  | ok m =>
    simp only [generateIdeas] at h
    rw [hl] at h
    have hs : s2 = { s with generatedIdeas := m, mode := some mode, step := .ideation } :=
      (congrArg Prod.fst h).symm
    subst hs
    refine ⟨rfl, rfl, ?_⟩
    intro pid hpid
    obtain ⟨ideas, hcall, hget⟩ := ideationLoop_ok_get personas mode now oracle pid
      s.selectedPersonaIds [] m hl hpid
    exact ⟨ideas, hget, ideationCall_shape personas mode now oracle pid ideas hcall⟩

def c7Oracle : String → Except String GenResponse :=
  fun _ => .ok ⟨some "[\x7b\"title\":\"T\",\"description\":\"D\"\x7d]", []⟩

def c7Result : WorkflowState :=
  { ideationReadyState with
    generatedIdeas := [("p1",
      [{ id := "p1-idea-5-0", personaId := "p1", title := "T",
         description := "D", selected := false }])],
    mode := some GenMode.manual, step := Step.ideation }

/-- Witness for the success-shape theorem at a concrete manual run. -/
theorem generateIdeas_successShape_witness :
    ∃ ideas, recGet c7Result.generatedIdeas "p1" = some ideas ∧
      ∀ k (hk : k < ideas.length),
        (ideas.get ⟨k, hk⟩).personaId = "p1" ∧
        (GenMode.manual = GenMode.manual →
          (ideas.get ⟨k, hk⟩).id =
            "p1" ++ "-idea-" ++ toString 5 ++ "-" ++ toString k) := by
  exact (generateIdeas_successShape [samplePersona] GenMode.manual 5 c7Oracle
    ideationReadyState c7Result rfl).2.2 "p1" (by decide)

/-! ## C5 -/

/-- C5 counterexample: a schema-declared call whose response text is present
but malformed does not resolve to an empty collection — JSON.parse throws
and the error propagates out of generateManualVariants, so no .ok result of
any kind is produced. -/
theorem manualVariants_raiseOnMalformedJson :
    jsonParse "oops" = none ∧
    generateManualVariants samplePersona 0 (.ok ⟨some "oops", []⟩)
      = .error "SyntaxError: JSON.parse" ∧
    generateManualVariants samplePersona 0 (.ok ⟨some "oops", []⟩)
      ≠ .ok ([] : List GeneratedIdea) := by
  refine ⟨rfl, rfl, ?_⟩
  intro h
  rw [show generateManualVariants samplePersona 0 (.ok ⟨some "oops", []⟩)
      = .error "SyntaxError: JSON.parse" from rfl] at h
  exact Except.noConfusion h

/-- C5 amended: for the schema-declared calls (manual idea variants,
requirement analysis, captions) the empty-collection fallback applies only
when the response text is absent or empty — the || default substitutes a
parseable empty collection; a present malformed text makes JSON.parse throw
and that error propagates out of the call. -/
theorem schemaCalls_fallbackOnlyOnMissingText (p : Persona)
    (idea : GeneratedIdea) (now : Nat) (r : GenResponse) (t : String)
    (hempty : r.text = none ∨ r.text = some "")
    (hbad : jsonParse t = none) (hne : t ≠ "") :
    generateManualVariants p now (.ok r) = .ok [] ∧
    analyzeIdeaRequirements idea (.ok r) = .ok [] ∧
    generateCaptionStrategy (.ok r) = .ok ⟨"", []⟩ ∧
    generateManualVariants p now (.ok ⟨some t, []⟩) = .error "SyntaxError: JSON.parse" ∧
    analyzeIdeaRequirements idea (.ok ⟨some t, []⟩) = .error "SyntaxError: JSON.parse" ∧
    generateCaptionStrategy (.ok ⟨some t, []⟩) = .error "SyntaxError: JSON.parse" := by
  have hd : ∀ d : String, strOr r.text d = d := by
    intro d
    rcases hempty with h | h <;> simp [h, strOr]
  have hts : ∀ d : String, strOr (some t) d = t := by
    intro d
    simp [strOr, hne]
  refine ⟨?_, ?_, ?_, ?_, ?_, ?_⟩
  · simp only [generateManualVariants, hd]
    rfl
  · simp only [analyzeIdeaRequirements, hd]
    rfl
  · simp only [generateCaptionStrategy, hd]
    rfl
  · simp only [generateManualVariants, hts]
    rw [hbad]
  · simp only [analyzeIdeaRequirements, hts]
    rw [hbad]
  · simp only [generateCaptionStrategy, hts]
    rw [hbad]

/-- Witness for the fallback theorem at concrete inputs. -/
theorem schemaCalls_fallbackOnlyOnMissingText_witness :
    generateManualVariants samplePersona 0 (.ok ⟨none, []⟩) = .ok [] ∧
    generateCaptionStrategy (.ok ⟨some "oops", []⟩)
      = .error "SyntaxError: JSON.parse" := by
  have h := schemaCalls_fallbackOnlyOnMissingText samplePersona sampleIdea 0
    ⟨none, []⟩ "oops" (Or.inl rfl) rfl (by decide)
  exact ⟨h.1, h.2.2.2.2.2⟩

/-! ## C6 -/

theorem firstIdxOf_lt_length (c : Char) :
    ∀ (cs : List Char) (i : Nat), firstIdxOf c cs = some i → i < cs.length := by
  intro cs
  induction cs with
  | nil => intro i h; simp [firstIdxOf] at h
  | cons x xs ih =>
    intro i h
    simp only [firstIdxOf] at h
    by_cases hx : x = c
    · rw [if_pos hx] at h
      injection h with h2
      subst h2
      simp
    · rw [if_neg hx] at h
      cases hf : firstIdxOf c xs with
      | none => rw [hf] at h; exact absurd h (by simp)
      | some k =>
        rw [hf] at h
        injection h with h2
        subst h2
        have := ih k hf
        simp only [List.length_cons]
        omega

theorem firstIdxOf_getD (c : Char) :
    ∀ (cs : List Char) (i : Nat), firstIdxOf c cs = some i →
      cs.getD i ' ' = c := by
  intro cs
  induction cs with
  | nil => intro i h; simp [firstIdxOf] at h
  | cons x xs ih =>
    intro i h
    simp only [firstIdxOf] at h
    by_cases hx : x = c
    · rw [if_pos hx] at h
      injection h with h2
      subst h2
      simpa using hx
    · rw [if_neg hx] at h
      cases hf : firstIdxOf c xs with
      | none => rw [hf] at h; exact absurd h (by simp)
      | some k =>
        rw [hf] at h
        injection h with h2
        subst h2
        simpa using ih k hf

theorem lastIdxOf_lt_length (c : Char) (cs : List Char) (j : Nat)
    (h : lastIdxOf c cs = some j) : j < cs.length := by
  simp only [lastIdxOf] at h
  cases hf : firstIdxOf c cs.reverse with
  | none => rw [hf] at h; exact absurd h (by simp)
  | some k =>
    rw [hf] at h
    injection h with h2
    have hk := firstIdxOf_lt_length c cs.reverse k hf
    rw [List.length_reverse] at hk
    omega

theorem findSome?_ne_none_of_mem {α β : Type} (l : List α) (f : α → Option β)
    (a : α) (b : β) (ha : a ∈ l) (hb : f a = some b) :
    l.findSome? f ≠ none := by
  induction l with
  | nil => simp at ha
  | cons x xs ih =>
    cases hx : f x with
    | some b2 => simp [List.findSome?_cons, hx]
    | none =>
      simp only [List.findSome?_cons, hx]
      rcases List.mem_cons.mp ha with h1 | h1
      · subst h1
        rw [hx] at hb
        exact absurd hb (by simp)
      · exact ih h1

theorem specScan_some_of_greedyParse (t : String) (m : String) (xs : List Json)
    (hm : extractArrayMatch t = some m) (hp : jsonParse m = some (Json.arr xs)) :
    specFirstCompleteArray t ≠ none := by
  simp only [extractArrayMatch] at hm
  cases hi : firstIdxOf '[' t.data with
  | none => rw [hi] at hm; exact absurd hm (by simp)
  | some i =>
    cases hj : lastIdxOf ']' t.data with
    | none => rw [hi, hj] at hm; exact absurd hm (by simp)
    | some j =>
      rw [hi, hj] at hm
      dsimp only at hm
      by_cases hij : i < j
      · rw [if_pos hij] at hm
        injection hm with hm2
        have hilen := firstIdxOf_lt_length '[' t.data i hi
        have hjlen := lastIdxOf_lt_length ']' t.data j hj
        have hio : t.data.getD i ' ' = '[' := firstIdxOf_getD '[' t.data i hi
        rw [← hm2] at hp
        have hinner :
            (List.range t.data.length).findSome? (fun len =>
              match jsonParse (String.mk ((t.data.drop i).take (len + 1))) with
              | some (Json.arr ys) => some ys
              | _ => none) ≠ none := by
          apply findSome?_ne_none_of_mem _ _ (j - i) xs
          · exact List.mem_range.mpr (by omega)
          · show (match jsonParse (String.mk ((t.data.drop i).take (j - i + 1))) with
              | some (Json.arr ys) => some ys
              | _ => none) = some xs
            rw [hp]
        obtain ⟨b, hb⟩ := Option.ne_none_iff_exists'.mp hinner
        simp only [specFirstCompleteArray]
        apply findSome?_ne_none_of_mem _ _ i b
        · exact List.mem_range.mpr hilen
        · show (if t.data.getD i ' ' = '[' then _ else none) = some b
          rw [if_pos hio]
          exact hb
      · rw [if_neg hij] at hm
        exact absurd hm (by simp)

/-- C6 amended: generateAutoTrends does not search for the first
syntactically complete JSON array by bracket matching; it takes the greedy
regex span from the first open bracket to the last close bracket of the
whole text, JSON.parses that single span inside a try/catch, maps its
elements into the result list when it is an array, and yields the empty list
in every other case — in particular the result is empty whenever the text
contains no syntactically complete array at all. -/
theorem autoTrends_greedySpanExtraction (p : Persona) (now : Nat)
    (t : String) :
    (specFirstCompleteArray t = none →
      generateAutoTrends p now (.ok ⟨some t, []⟩) = .ok []) ∧
    (∀ m xs, extractArrayMatch t = some m → jsonParse m = some (Json.arr xs) →
      generateAutoTrends p now (.ok ⟨some t, []⟩) =
        .ok (xs.enum.map (fun q => trendIdeaOfJson p now q.1 q.2))) := by
  constructor
  · intro hnone
    simp only [generateAutoTrends, Option.getD]
    cases hm : extractArrayMatch t with
    | none => simp [hm]
    | some m =>
      cases hp : jsonParse m with
      | none => simp [hm, hp]
      | some j =>
        cases j with
        | arr xs => exact absurd hnone (specScan_some_of_greedyParse t m xs hm hp)
        | null => simp [hm, hp]
        | bool b => simp [hm, hp]
        | num lx => simp [hm, hp]
        | str s2 => simp [hm, hp]
        | obj fs => simp [hm, hp]
  · intro m xs hm hp
    simp only [generateAutoTrends, Option.getD]
    simp [hm, hp]

def c6Text : String := "x [\"a\"] y ]"

/-- C6 counterexample: the text contains the complete JSON array holding one
string, which bracket matching finds and which would map to a one-element
result list, but the source's greedy first-to-last-bracket span fails to
parse and the call returns the empty list instead. -/
theorem autoTrends_missesFirstCompleteArray :
    specFirstCompleteArray c6Text = some [Json.str "a"] ∧
    generateAutoTrends samplePersona 0 (.ok ⟨some c6Text, []⟩) = .ok [] ∧
    ([Json.str "a"].enum.map
      (fun q => trendIdeaOfJson samplePersona 0 q.1 q.2)).length = 1 := by
  exact ⟨rfl, rfl, rfl⟩

/-- Witness for the greedy-extraction theorem at a concrete bracket-free
text. -/
theorem autoTrends_greedySpanExtraction_witness :
    specFirstCompleteArray "no array here" = none ∧
    generateAutoTrends samplePersona 0 (.ok ⟨some "no array here", []⟩) = .ok [] := by
  refine ⟨rfl, ?_⟩
  exact (autoTrends_greedySpanExtraction samplePersona 0 "no array here").1 rfl

/-! ## C8 -/

def sampleImage : GeneratedImage :=
  { id := "idea1-img-123-0", ideaId := "i1",
    imageUrl := "data:image/png;base64,AAA", prompt := "P" }

/-- C8: editing an existing GeneratedImage through editImageWithChat with a
successful capability response replaces only its content — the first
inlineData part becomes the new imageUrl while id, ideaId and prompt are
unchanged; when the response carries no image content the call throws and
handleEditImage commits no state change, reporting only "Editing failed.". -/
theorem editImage_replacesContentPreservesIdentity
    (image : GeneratedImage) (instruction : String) (b64 : String)
    (r : GenResponse) (d : String) (ideaId imageId : String)
    (editInputs : List (String × String)) (s : WorkflowState)
    (images : List GeneratedImage) (input : String)
    (hsplit : (splitComma image.imageUrl)[1]? = some b64) (hb : b64 ≠ "") :
    (firstInlineData r.parts = some d →
      editImageWithChat image instruction (.ok r) =
        .ok { id := image.id, ideaId := image.ideaId,
              imageUrl := "data:image/png;base64," ++ d,
              prompt := image.prompt }) ∧
    (firstInlineData r.parts = none →
      editImageWithChat image instruction (.ok r) =
        .error "No image returned from edit") ∧
    (firstInlineData r.parts = none →
      recGet editInputs imageId = some input → input ≠ "" →
      recGet s.generatedImages ideaId = some images →
      images.find? (fun img => img.id == imageId) = some image →
      handleEditImage ideaId imageId editInputs (.ok r) s =
        (s, some "Editing failed.")) := by
  have hstep : ∀ (instr : String),
      editImageWithChat image instr (.ok r) =
        (match firstInlineData r.parts with
         | some d2 => .ok { image with imageUrl := "data:image/png;base64," ++ d2 }
         | none => .error "No image returned from edit") := by
    intro instr
    simp only [editImageWithChat]
    rw [hsplit]
    dsimp only
    rw [if_neg hb]
  refine ⟨?_, ?_, ?_⟩
  · intro hinl
    rw [hstep instruction, hinl]
  · intro hinl
    rw [hstep instruction, hinl]
  · intro hinl hin hne himgs hfind
    simp only [handleEditImage]
    rw [hin]
    dsimp only
    rw [if_neg hne, himgs]
    dsimp only
    rw [hfind]
    dsimp only
    rw [hstep input, hinl]

/-- Witness for the edit theorem: a successful edit of a concrete image
replaces imageUrl and preserves id, ideaId and prompt. -/
theorem editImage_replacesContentPreservesIdentity_witness :
    ((splitComma sampleImage.imageUrl)[1]? = some "AAA" ∧ ("AAA" : String) ≠ "") ∧
    editImageWithChat sampleImage "make it sunny"
        (.ok ⟨none, [⟨none, some "NEW"⟩]⟩) =
      .ok { id := "idea1-img-123-0", ideaId := "i1",
            imageUrl := "data:image/png;base64,NEW", prompt := "P" } := by
  refine ⟨⟨rfl, by decide⟩, ?_⟩
  exact (editImage_replacesContentPreservesIdentity sampleImage "make it sunny"
    "AAA" ⟨none, [⟨none, some "NEW"⟩]⟩ "NEW" "i1" "idea1-img-123-0" []
    emptyWorkflow [] "" rfl (by decide)).1 rfl

/-! ## C3 -/

/-- C3: during the image-generation stage every individual capability call
is caught and skipped on failure instead of aborting the batch: with three
selected personas and two calls each where persona B fails both calls (and A
and C each have one failing and one succeeding call), the committed
generatedImages map holds a non-empty list for A and C and the empty list
for B, no error is reported, and the step still advances to editing. -/
theorem proceedToGeneration_skipsFailedImageCalls
    (personas : List Persona) (pa pb pc : Persona) (ia ib ic : GeneratedIdea)
    (la lb lc : List GeneratedIdea) (s : WorkflowState) (now : Nat)
    (oracle : String → Nat → Except String GenResponse)
    (da dc ea eb0 eb1 ec0 : String)
    (hsel : s.selectedPersonaIds = [pa.id, pb.id, pc.id])
    (hida : recGet s.selectedIdeaIds pa.id = some ia.id)
    (hidb : recGet s.selectedIdeaIds pb.id = some ib.id)
    (hidc : recGet s.selectedIdeaIds pc.id = some ic.id)
    (hia : ia.id ≠ "") (hib : ib.id ≠ "") (hic : ic.id ≠ "")
    (hga : recGet s.generatedIdeas pa.id = some la)
    (hgb : recGet s.generatedIdeas pb.id = some lb)
    (hgc : recGet s.generatedIdeas pc.id = some lc)
    (hfa : la.find? (fun i => i.id == ia.id) = some ia)
    (hfb : lb.find? (fun i => i.id == ib.id) = some ib)
    (hfc : lc.find? (fun i => i.id == ic.id) = some ic)
    (hpa : findPersona personas pa.id = some pa)
    (hpb : findPersona personas pb.id = some pb)
    (hpc : findPersona personas pc.id = some pc)
    (hoa0 : oracle pa.id 0 = .ok ⟨none, [⟨none, some da⟩]⟩)
    (hoa1 : oracle pa.id 1 = .error ea)
    (hob0 : oracle pb.id 0 = .error eb0)
    (hob1 : oracle pb.id 1 = .error eb1)
    (hoc0 : oracle pc.id 0 = .error ec0)
    (hoc1 : oracle pc.id 1 = .ok ⟨none, [⟨none, some dc⟩]⟩)
    (hab : ia.id ≠ ib.id) (hac : ia.id ≠ ic.id) (hbc : ib.id ≠ ic.id) :
    (proceedToGeneration personas 2 now oracle s).2 = none ∧
    (proceedToGeneration personas 2 now oracle s).1.step = Step.editing ∧
    (∃ l, recGet (proceedToGeneration personas 2 now oracle s).1.generatedImages
        ia.id = some l ∧ l ≠ []) ∧
    recGet (proceedToGeneration personas 2 now oracle s).1.generatedImages
        ib.id = some [] ∧
    (∃ l, recGet (proceedToGeneration personas 2 now oracle s).1.generatedImages
        ic.id = some l ∧ l ≠ []) := by
  have hrange : List.range 2 = [0, 1] := rfl
  have hLa : generateUGCImages pa ia ((recGet s.refinementData ia.id).getD [])
      2 now (oracle pa.id)
      = [{ id := ia.id ++ "-img-" ++ toString now ++ "-" ++ toString 0,
           ideaId := ia.id, imageUrl := "data:image/png;base64," ++ da,
           prompt := buildFullPrompt pa ia ((recGet s.refinementData ia.id).getD []) }] := by
    simp [generateUGCImages, hrange, hoa0, hoa1, imagesFromResponse]
  have hLb : generateUGCImages pb ib ((recGet s.refinementData ib.id).getD [])
      2 now (oracle pb.id) = [] := by
    simp [generateUGCImages, hrange, hob0, hob1]
  have hLc : generateUGCImages pc ic ((recGet s.refinementData ic.id).getD [])
      2 now (oracle pc.id)
      = [{ id := ic.id ++ "-img-" ++ toString now ++ "-" ++ toString 1,
           ideaId := ic.id, imageUrl := "data:image/png;base64," ++ dc,
           prompt := buildFullPrompt pc ic ((recGet s.refinementData ic.id).getD []) }] := by
    simp [generateUGCImages, hrange, hoc0, hoc1, imagesFromResponse]
  have hloop : generationLoop personas s 2 now oracle [pa.id, pb.id, pc.id] []
      = .ok [(ia.id,
          [{ id := ia.id ++ "-img-" ++ toString now ++ "-" ++ toString 0,
             ideaId := ia.id, imageUrl := "data:image/png;base64," ++ da,
             prompt := buildFullPrompt pa ia ((recGet s.refinementData ia.id).getD []) }]),
         (ib.id, ([] : List GeneratedImage)),
         (ic.id,
          [{ id := ic.id ++ "-img-" ++ toString now ++ "-" ++ toString 1,
             ideaId := ic.id, imageUrl := "data:image/png;base64," ++ dc,
             prompt := buildFullPrompt pc ic ((recGet s.refinementData ic.id).getD []) }])] := by
    simp [generationLoop, hida, hidb, hidc, hga, hgb, hgc, hfa, hfb, hfc,
      hpa, hpb, hpc, hLa, hLb, hLc, hia, hib, hic, recSet, hab, hac, hbc]
  have key : ∀ M : List (String × List GeneratedImage),
      generationLoop personas s 2 now oracle s.selectedPersonaIds [] = .ok M →
      proceedToGeneration personas 2 now oracle s =
        ({ s with generatedImages := M, step := Step.editing }, none) := by
    intro M hM
    simp only [proceedToGeneration, hM]
  have hloopSel : generationLoop personas s 2 now oracle s.selectedPersonaIds []
      = generationLoop personas s 2 now oracle [pa.id, pb.id, pc.id] [] := by
    rw [hsel]
  have hres := key _ (hloopSel.trans hloop)
  rw [hres]
  refine ⟨rfl, rfl, ?_, ?_, ?_⟩
  · simp [recGet_cons]
  · simp [recGet_cons, hab]
  · simp [recGet_cons, hac, hbc]

def c3PersonaA : Persona := { samplePersona with id := "a" }

def c3PersonaB : Persona := { samplePersona with id := "b" }

def c3PersonaC : Persona := { samplePersona with id := "c" }

def c3IdeaA : GeneratedIdea :=
  { id := "ida", personaId := "a", title := "T", description := "D", selected := false }

def c3IdeaB : GeneratedIdea :=
  { id := "idb", personaId := "b", title := "T", description := "D", selected := false }

def c3IdeaC : GeneratedIdea :=
  { id := "idc", personaId := "c", title := "T", description := "D", selected := false }

def c3State : WorkflowState :=
  { step := .refinement, selectedPersonaIds := ["a", "b", "c"],
    mode := some .manual, manualActivityInput := "",
    generatedIdeas := [("a", [c3IdeaA]), ("b", [c3IdeaB]), ("c", [c3IdeaC])],
    selectedIdeaIds := [("a", "ida"), ("b", "idb"), ("c", "idc")],
    refinementData := [], generatedImages := [], captions := [] }

def c3Oracle : String → Nat → Except String GenResponse :=
  fun pid i =>
    if pid = "a" then
      (if i = 0 then .ok ⟨none, [⟨none, some "DA"⟩]⟩ else .error "failA1")
    else if pid = "c" then
      (if i = 0 then .error "failC0" else .ok ⟨none, [⟨none, some "DC"⟩]⟩)
    else .error "failB"

/-- Witness for the catch-and-skip theorem at the concrete three-persona
scenario with persona b failing both calls. -/
theorem proceedToGeneration_skipsFailedImageCalls_witness :
    (proceedToGeneration [c3PersonaA, c3PersonaB, c3PersonaC] 2 7 c3Oracle c3State).2 = none ∧
    (proceedToGeneration [c3PersonaA, c3PersonaB, c3PersonaC] 2 7 c3Oracle c3State).1.step = Step.editing ∧
    (∃ l, recGet (proceedToGeneration [c3PersonaA, c3PersonaB, c3PersonaC] 2 7 c3Oracle c3State).1.generatedImages
        "ida" = some l ∧ l ≠ []) ∧
    recGet (proceedToGeneration [c3PersonaA, c3PersonaB, c3PersonaC] 2 7 c3Oracle c3State).1.generatedImages
        "idb" = some [] ∧
    (∃ l, recGet (proceedToGeneration [c3PersonaA, c3PersonaB, c3PersonaC] 2 7 c3Oracle c3State).1.generatedImages
        "idc" = some l ∧ l ≠ []) := by
  exact proceedToGeneration_skipsFailedImageCalls
    [c3PersonaA, c3PersonaB, c3PersonaC] c3PersonaA c3PersonaB c3PersonaC
    c3IdeaA c3IdeaB c3IdeaC [c3IdeaA] [c3IdeaB] [c3IdeaC] c3State 7 c3Oracle
    "DA" "DC" "failA1" "failB" "failB" "failC0"
    rfl rfl rfl rfl (by decide) (by decide) (by decide) rfl rfl rfl rfl rfl rfl
    rfl rfl rfl rfl rfl rfl rfl rfl rfl (by decide) (by decide) (by decide)

end UGC
